import Mathlib

/-!
Verification of the travel-spot-generator server pipeline.

Shallow embedding of:
- `src/lib/logger.ts` — pricing table, model-id normalization, request-cost
  computation, daily cost ledger (read, budget check, usage recording);
- `src/app/api/generate-spots/route.ts` — the POST generation route and the
  two-tier Wikipedia image resolver and the enrichment fan-out;
- `src/app/api/image-proxy/route.ts` — the image-proxy GET boundary.

Money is modelled with exact rationals; machine floats only add and compare
here, and every claim is about structure (ordering of checks, monotonicity,
exact table lookups), not rounding. External effects (fetch, `new URL`,
`JSON.parse` of unknown payloads, the model call) are modelled as explicit
outcome parameters so every interleaving of outcomes is quantified over.
-/

namespace TravelSpot

/-- Per-token input/output price, one row of the PRICING record. -/
structure PriceRate where
  input : ℚ
  output : ℚ
deriving DecidableEq, Repr

/-- The "gpt-4o-mini" row of PRICING: 0.15 / 1e6 input, 0.60 / 1e6 output.
It is also the fallback tier used when a lookup misses. -/
def gptFourOMiniRate : PriceRate :=
  ⟨(0.15 : ℚ) / 1000000, (0.60 : ℚ) / 1000000⟩

/-- The PRICING record of logger.ts: JS object lookup returns undefined
(here: none) for any key not present. -/
def PRICING : String → Option PriceRate
  | "gpt-4o-mini" => some gptFourOMiniRate
  | "gpt-4o" => some ⟨(2.50 : ℚ) / 1000000, (10.00 : ℚ) / 1000000⟩
  | "gpt-4-turbo" => some ⟨(10.00 : ℚ) / 1000000, (30.00 : ℚ) / 1000000⟩
  | "gpt-4" => some ⟨(30.00 : ℚ) / 1000000, (60.00 : ℚ) / 1000000⟩
  | "gpt-3.5-turbo" => some ⟨(0.50 : ℚ) / 1000000, (1.50 : ℚ) / 1000000⟩
  | _ => none

/-- Consume a maximal run of decimal digits; return its length and the rest. -/
def takeDigits : List Char → Nat × List Char
  | [] => (0, [])
  | c :: rest =>
    if c.isDigit then
      let r := takeDigits rest
      (r.1 + 1, r.2)
    else (0, c :: rest)

/-- Matcher for the anchored regex `-\d\x7b4\x7d-\d\x7b2\x7d-\d\x7b2\x7d$` of
normalizeModel, working on the REVERSED character list: the string ends in
"-YYYY-MM-DD" iff the reversed list starts with d d - m m - y y y y -.
Returns the reversed remainder when it matches. -/
def stripDateSuffixRev : List Char → Option (List Char)
  | d1 :: d2 :: h1 :: m1 :: m2 :: h2 :: y1 :: y2 :: y3 :: y4 :: h3 :: rest =>
    if d1.isDigit && d2.isDigit && h1 = '-' && m1.isDigit && m2.isDigit
        && h2 = '-' && y1.isDigit && y2.isDigit && y3.isDigit && y4.isDigit
        && h3 = '-' then
      some rest
    else none
  | _ => none

/-- normalizeModel of logger.ts: strip a trailing "-YYYY-MM-DD" date suffix
(e.g. "gpt-4o-mini-2024-07-18" becomes "gpt-4o-mini"); anything else is
returned unchanged. -/
def normalizeModel (model : String) : String :=
  match stripDateSuffixRev model.data.reverse with
  | some rest => ⟨rest.reverse⟩
  | none => model

/-- calcRequestCost of logger.ts: look the normalized model id up in PRICING,
fall back to the "gpt-4o-mini" tier on a miss, and charge
promptTokens × input + completionTokens × output. -/
def calcRequestCost (model : String) (promptTokens completionTokens : Nat) : ℚ :=
  let rates := (PRICING (normalizeModel model)).getD gptFourOMiniRate
  promptTokens * rates.input + completionTokens * rates.output

/-- DailyCost of logger.ts — the persisted per-date usage/cost record
(the DailyCostRecord of the specification; its requests field is the
requestCount of the specification). -/
structure DailyCost where
  date : String
  requests : Nat
  totalPromptTokens : Nat
  totalCompletionTokens : Nat
  totalTokens : Nat
  totalCostUSD : ℚ
deriving DecidableEq, Repr

/-- The zero record readDailyCost constructs lazily when no file exists yet
for the date. -/
def zeroDailyCost (date : String) : DailyCost :=
  ⟨date, 0, 0, 0, 0, 0⟩

/-- readDailyCost of logger.ts: the stored record for the date when one
exists, else the zero record. -/
def readDailyCost (stored : Option DailyCost) (date : String) : DailyCost :=
  stored.getD (zeroDailyCost date)

/-- Default daily budget ceiling: OPENAI_DAILY_BUDGET_USD defaults to "5.00". -/
def DAILY_BUDGET_DEFAULT : ℚ := 5

/-- Storage read outcome: error models any thrown read failure, ok carries
the stored record for today when the file exists. -/
abbrev LedgerStore := Except Unit (Option DailyCost)

/-- isDailyBudgetExceeded of logger.ts: true iff the accumulated
totalCostUSD of today has reached or passed the budget; any read failure is
caught and yields false (fail open). -/
def isDailyBudgetExceeded (budget : ℚ) (todayDate : String)
    (store : LedgerStore) : Bool :=
  match store with
  | .error _ => false
  | .ok stored => decide (budget ≤ (readDailyCost stored todayDate).totalCostUSD)

/-- The daily-cost-tracker update block of logCompletion in logger.ts:
increment the request count, add the token counts, add the cost of this
request. -/
def logCompletionUpdate (daily : DailyCost) (model : String)
    (promptTokens completionTokens : Nat) : DailyCost :=
  { daily with
    requests := daily.requests + 1
    totalPromptTokens := daily.totalPromptTokens + promptTokens
    totalCompletionTokens := daily.totalCompletionTokens + completionTokens
    totalTokens := daily.totalTokens + (promptTokens + completionTokens)
    totalCostUSD := daily.totalCostUSD + calcRequestCost model promptTokens completionTokens }

/-- One full read-modify-write of the ledger for a date: read (zero record if
absent), apply the update, persist. In the source this whole sequence
is synchronous (readFileSync through writeFileSync with no suspension point),
so under the single-threaded event loop it executes atomically. -/
def recordToStore (stored : Option DailyCost) (date model : String)
    (promptTokens completionTokens : Nat) : Option DailyCost :=
  some (logCompletionUpdate (readDailyCost stored date) model promptTokens completionTokens)

/-- Two concurrent requests against the same date: because each ledger
read-modify-write is one atomic step (no await between read and write in
logCompletion), any interleaving of the two requests reduces to one of the
two serial orders of their ledger updates. -/
def runTwoUpdates (firstIsOne : Bool) (stored : Option DailyCost) (date : String)
    (m1 : String) (p1 c1 : Nat) (m2 : String) (p2 c2 : Nat) : Option DailyCost :=
  if firstIsOne then
    recordToStore (recordToStore stored date m1 p1 c1) date m2 p2 c2
  else
    recordToStore (recordToStore stored date m2 p2 c2) date m1 p1 c1

/-- Review of types/spot.ts. -/
structure Review where
  author : String
  rating : ℚ
  comment : String
  date : String
deriving DecidableEq, Repr

/-- Coordinates of types/spot.ts. -/
structure Coordinates where
  lat : ℚ
  lng : ℚ
deriving DecidableEq, Repr

/-- TouristSpot of types/spot.ts. imageUrl none models both absent and null
(the route writes null for a failed resolution); coordinates none models
absent. -/
structure TouristSpot where
  id : String
  name : String
  description : String
  shortDescription : String
  address : String
  distance : String
  rating : ℚ
  reviewCount : Nat
  reviews : List Review
  entranceFee : String
  category : String
  openingHours : String
  bestTimeToVisit : String
  highlights : List String
  tags : List String
  imageUrl : Option String
  coordinates : Option Coordinates
deriving DecidableEq, Repr

/-- JS String.prototype.trim: strip leading and trailing whitespace. -/
def jsTrim (s : String) : String :=
  ⟨((s.data.dropWhile Char.isWhitespace).reverse.dropWhile Char.isWhitespace).reverse⟩

/-- The enrichment fan-out of the POST route: map over the spots, resolve an
image for each by name, and rebuild each spot with only imageUrl replaced.
Promise.all preserves input order (index-based reattachment), so the
concurrent fan-out denotes exactly this order-preserving map; the
resolution outcome of one spot is a function of that spot alone. -/
def enrichSpots (resolveImage : String → Option String)
    (spots : List TouristSpot) : List TouristSpot :=
  spots.map (fun spot => { spot with imageUrl := resolveImage spot.name })

/-- Outcome of one page-summary lookup (fetch plus json plus thumbnail
extraction): errored models a thrown fetch/parse error, notOk a non-2xx
response, okNoThumb a 2xx response without thumbnail.source, okThumb a 2xx
response carrying the thumbnail source URL. -/
inductive SummaryOutcome where
  | errored
  | notOk
  | okNoThumb
  | okThumb (thumbUrl : String)
deriving DecidableEq, Repr

/-- Outcome of one full-text search lookup: errored models a thrown
fetch/parse error, notOk a non-2xx response, okNoTitle a 2xx response with
no hits, okTitle a 2xx response whose top hit has the given title. -/
inductive SearchOutcome where
  | errored
  | notOk
  | okNoTitle
  | okTitle (title : String)
deriving DecidableEq, Repr

/-- Matcher for the regex `/\d+px-` at the head of a character list: a
slash, one or more digits, then "px-". Returns the remainder after the
match. Greedy digit consumption is exact here since a shorter digit run
would leave a digit where the regex needs the letter p. -/
def matchPxToken : List Char → Option (List Char)
  | '/' :: rest =>
    let r := takeDigits rest
    if r.1 = 0 then none
    else
      match r.2 with
      | 'p' :: 'x' :: '-' :: tail => some tail
      | _ => none
  | _ => none

/-- Replace the first occurrence of `/\d+px-` with "/640px-" (JS
String.replace with a non-global regex rewrites only the first match). -/
def replaceFirstPx : List Char → List Char
  | [] => []
  | c :: rest =>
    match matchPxToken (c :: rest) with
    | some tail => '/' :: '6' :: '4' :: '0' :: 'p' :: 'x' :: '-' :: tail
    | none => c :: replaceFirstPx rest

/-- The upscale closure of fetchWikipediaImage: rewrite the embedded width
token of a thumbnail URL to 640px. -/
def upscale (url : String) : String :=
  ⟨replaceFirstPx url.data⟩

/-- The slug construction of fetchWikipediaImage: every space becomes an
underscore (JS replace with the global regex / /g). -/
def slugify (s : String) : String :=
  ⟨s.data.map (fun c => if c = ' ' then '_' else c)⟩

/-- fetchWikipediaImage of the POST route. The two external endpoints are
explicit parameters: summaryOf is the page-summary endpoint (keyed by the
slug it is fetched with), searchOf the full-text search endpoint (keyed by
the raw spot name). Tier 1 queries the summary of the trimmed, slugified
spot name and returns its upscaled thumbnail on a hit; every other tier-1
outcome (thrown error, non-2xx, missing thumbnail) falls through to tier 2,
which queries search, feeds the top title (slugified) back into the summary
endpoint, and upscales its thumbnail if present. Every remaining outcome,
thrown errors included, yields none: the function is total and never
raises. -/
def fetchWikipediaImage (summaryOf : String → SummaryOutcome)
    (searchOf : String → SearchOutcome) (spotName : String) : Option String :=
  match summaryOf (slugify (jsTrim spotName)) with
  | .okThumb thumb => some (upscale thumb)
  | _ =>
    match searchOf spotName with
    | .okTitle title =>
      match summaryOf (slugify title) with
      | .okThumb thumb => some (upscale thumb)
      | _ => none
    | _ => none

/-- The payload shape the route reads off the parsed model output: an
optional locationName and an optional spots list (either JSON field may be
absent). -/
structure GenData where
  locationName : Option String
  spots : Option (List TouristSpot)
deriving DecidableEq, Repr

/-- What JSON.parse does to the raw message content in the route:
absent models a null content (the route substitutes the empty-object
literal, which parses to a payload with no fields), unparsable models a
thrown parse error, parsed carries the decoded payload. -/
inductive ContentOutcome where
  | absent
  | unparsable
  | parsed (data : GenData)
deriving DecidableEq, Repr

/-- The usage counters of a completion (usage may be missing, in which case
the route charges zero tokens). -/
structure ModelUsage where
  promptTokens : Nat
  completionTokens : Nat
deriving DecidableEq, Repr

/-- A completion as the route consumes it: the echoed model id, the
optional usage counters, and the content of the first choice. -/
structure ModelResponse where
  model : String
  usage : Option ModelUsage
  content : ContentOutcome
deriving DecidableEq, Repr

/-- Outcome of the openai.chat.completions.create call: failure models any
thrown error (network, auth, ...), success carries the completion. -/
inductive ModelOutcome where
  | failure
  | success (resp : ModelResponse)
deriving DecidableEq, Repr

/-- The response of the POST route, named by its source branch. -/
inductive PostResult where
  | noApiKey
  | emptyAddress
  | budgetExceeded
  | serverError
  | ok (data : GenData)
deriving DecidableEq, Repr

/-- HTTP status of each POST response branch as written in the route. -/
def PostResult.status : PostResult → Nat
  | .noApiKey => 401
  | .emptyAddress => 400
  | .budgetExceeded => 429
  | .serverError => 500
  | .ok _ => 200

instance {ε α : Type} [DecidableEq ε] [DecidableEq α] : DecidableEq (Except ε α) :=
  fun a b =>
    match a, b with
    | .error e, .error f =>
      if h : e = f then .isTrue (by rw [h])
      else .isFalse (by intro hh; cases hh; exact h rfl)
    | .error _, .ok _ => .isFalse (by intro hh; cases hh)
    | .ok _, .error _ => .isFalse (by intro hh; cases hh)
    | .ok x, .ok y =>
      if h : x = y then .isTrue (by rw [h])
      else .isFalse (by intro hh; cases hh; exact h rfl)

/-- What the POST route produced: the response, whether the model call was
issued, and the ledger storage state after the request. -/
structure PostOutcome where
  result : PostResult
  modelInvoked : Bool
  store : LedgerStore
deriving DecidableEq, Repr

/-- The address guard of the route. JS `!address?.trim()` is truthy when
the field is absent or when the trimmed string is empty. -/
def hasEmptyAddress : Option String → Bool
  | none => true
  | some s => jsTrim s = ""

/-- The tail of the POST route after the completion has returned (source
lines 189-207): logCompletion updates the ledger (its own try/catch leaves
the store unchanged when the initial read failed) before the content is
parsed; an unparsable content yields 500 (the ledger already updated),
otherwise the spots field (or the empty list when the field is absent) is
enriched and written back, and the payload is returned 200. -/
def postAfterModel (todayDate : String) (store : LedgerStore)
    (resp : ModelResponse) (resolveImage : String → Option String) : PostOutcome :=
  let p := (resp.usage.getD ⟨0, 0⟩).promptTokens
  let c := (resp.usage.getD ⟨0, 0⟩).completionTokens
  let storeAfterLog : LedgerStore :=
    match store with
    | .error e => .error e
    | .ok stored => .ok (recordToStore stored todayDate resp.model p c)
  match resp.content with
  | .unparsable => ⟨.serverError, true, storeAfterLog⟩
  | .absent =>
    ⟨.ok ⟨none, some (enrichSpots resolveImage [])⟩, true, storeAfterLog⟩
  | .parsed data =>
    ⟨.ok { data with
           spots := some (enrichSpots resolveImage (data.spots.getD [])) },
      true, storeAfterLog⟩

/-- The POST route of generate-spots, in source order. body error models a
request body that fails JSON parsing (the thrown error reaches the outer
catch: 500). The api key is the header value, else the env value, else the
empty string; an empty key is rejected 401 before the address check (400),
then the budget guardrail runs (429) before the model call. On a model
failure the outer catch returns 500 with no ledger update; on a completion
the route continues with postAfterModel. -/
def POST (budget : ℚ) (todayDate : String) (store : LedgerStore)
    (headerKey envKey : Option String) (body : Except Unit (Option String))
    (modelOutcome : ModelOutcome)
    (resolveImage : String → Option String) : PostOutcome :=
  match body with
  | .error _ => ⟨.serverError, false, store⟩
  | .ok address =>
    let apiKey := headerKey.getD (envKey.getD "")
    if apiKey = "" then ⟨.noApiKey, false, store⟩
    else if hasEmptyAddress address then ⟨.emptyAddress, false, store⟩
    else if isDailyBudgetExceeded budget todayDate store then
      ⟨.budgetExceeded, false, store⟩
    else
      match modelOutcome with
      | .failure => ⟨.serverError, true, store⟩
      | .success resp => postAfterModel todayDate store resp resolveImage

/-- The single allow-listed host of the image proxy. -/
def ALLOWED_HOST : String := "upload.wikimedia.org"

/-- The fixed upstream fetch timeout of the image proxy, in milliseconds. -/
def PROXY_TIMEOUT_MS : Nat := 8000

/-- Body of a proxy response: a plain text message or proxied image bytes
with their content type. -/
inductive ProxyBody where
  | text (msg : String)
  | imageBytes (bytes : List Nat) (contentType : String)
deriving DecidableEq, Repr

/-- A proxy response: HTTP status and body. -/
structure ProxyResponse where
  status : Nat
  body : ProxyBody
deriving DecidableEq, Repr

/-- Outcome of the upstream fetch: timedOut models the AbortError raised
when the 8-second timer fires (or the fetch is otherwise aborted),
fetchFailed any other thrown error, response a completed HTTP exchange. -/
inductive UpstreamOutcome where
  | timedOut
  | fetchFailed
  | response (ok : Bool) (status : Nat) (contentType : Option String) (bytes : List Nat)
deriving DecidableEq, Repr

/-- What the proxy GET produced: the response and whether the upstream
fetch was issued at all. -/
structure ProxyResult where
  response : ProxyResponse
  fetched : Bool
deriving DecidableEq, Repr

/-- The GET route of image-proxy, in source order. parseHostname stands for
the WHATWG URL constructor: none when `new URL` throws, else the hostname
of the parsed URL. A missing url parameter is 400, an unparsable one 400,
a hostname differing from the single allow-listed host 403 — each without
issuing the upstream fetch. Otherwise the fetch runs under the 8-second
abort timer: a timeout gives 502 "Image fetch timed out", any other thrown
error 502 "Failed to fetch image", a non-2xx upstream status is proxied
through, and a 2xx response streams the bytes back with the upstream
content type (defaulting to image/jpeg). -/
def imageProxyGET (parseHostname : String → Option String)
    (urlParam : Option String) (upstream : UpstreamOutcome) : ProxyResult :=
  match urlParam with
  | none => ⟨⟨400, .text "Missing url parameter"⟩, false⟩
  | some url =>
    match parseHostname url with
    | none => ⟨⟨400, .text "Invalid URL"⟩, false⟩
    | some host =>
      if host ≠ ALLOWED_HOST then ⟨⟨403, .text "Host not allowed"⟩, false⟩
      else
        match upstream with
        | .timedOut => ⟨⟨502, .text "Image fetch timed out"⟩, true⟩
        | .fetchFailed => ⟨⟨502, .text "Failed to fetch image"⟩, true⟩
        | .response ok status contentType bytes =>
          if ok then ⟨⟨200, .imageBytes bytes (contentType.getD "image/jpeg")⟩, true⟩
          else ⟨⟨status, .text ("Upstream error: " ++ toString status)⟩, true⟩

/-! ### Shared lemmas -/

theorem pricing_some_nonneg (s : String) (r : PriceRate) (h : PRICING s = some r) :
    0 ≤ r.input ∧ 0 ≤ r.output := by
  unfold PRICING at h
  split at h <;> cases h <;> constructor <;> norm_num [gptFourOMiniRate]

theorem calcRequestCost_nonneg (model : String) (p c : Nat) :
    0 ≤ calcRequestCost model p c := by
  unfold calcRequestCost
  cases heq : PRICING (normalizeModel model) with
  | none =>
    simp only [heq, Option.getD_none]
    have hi : (0 : ℚ) ≤ gptFourOMiniRate.input := by norm_num [gptFourOMiniRate]
    have ho : (0 : ℚ) ≤ gptFourOMiniRate.output := by norm_num [gptFourOMiniRate]
    exact add_nonneg (mul_nonneg (Nat.cast_nonneg p) hi) (mul_nonneg (Nat.cast_nonneg c) ho)
  | some r =>
    obtain ⟨hi, ho⟩ := pricing_some_nonneg (normalizeModel model) r heq
    simp only [heq, Option.getD_some]
    exact add_nonneg (mul_nonneg (Nat.cast_nonneg p) hi) (mul_nonneg (Nat.cast_nonneg c) ho)

theorem POST_guard_pass (budget : ℚ) (todayDate : String) (store : LedgerStore)
    (headerKey envKey : Option String) (address : Option String)
    (modelOutcome : ModelOutcome) (resolveImage : String → Option String)
    (hkey : headerKey.getD (envKey.getD "") ≠ "")
    (haddr : hasEmptyAddress address = false)
    (hbudget : isDailyBudgetExceeded budget todayDate store = false) :
    POST budget todayDate store headerKey envKey (Except.ok address) modelOutcome resolveImage
      = match modelOutcome with
        | .failure => ⟨.serverError, true, store⟩
        | .success resp => postAfterModel todayDate store resp resolveImage := by
  simp [POST, hkey, haddr, hbudget]

theorem POST_budget_block (budget : ℚ) (todayDate : String) (store : LedgerStore)
    (headerKey envKey : Option String) (address : Option String)
    (modelOutcome : ModelOutcome) (resolveImage : String → Option String)
    (hkey : headerKey.getD (envKey.getD "") ≠ "")
    (haddr : hasEmptyAddress address = false)
    (hbudget : isDailyBudgetExceeded budget todayDate store = true) :
    POST budget todayDate store headerKey envKey (Except.ok address) modelOutcome resolveImage
      = ⟨.budgetExceeded, false, store⟩ := by
  simp [POST, hkey, haddr, hbudget]

theorem budget_not_exceeded_of_lt (budget : ℚ) (todayDate : String)
    (stored : Option DailyCost)
    (h : (readDailyCost stored todayDate).totalCostUSD < budget) :
    isDailyBudgetExceeded budget todayDate (Except.ok stored) = false := by
  simp [isDailyBudgetExceeded]
  exact h

theorem budget_exceeded_of_le (budget : ℚ) (todayDate : String)
    (stored : Option DailyCost)
    (h : budget ≤ (readDailyCost stored todayDate).totalCostUSD) :
    isDailyBudgetExceeded budget todayDate (Except.ok stored) = true := by
  simp [isDailyBudgetExceeded]
  exact h

/-! ### Claim theorems -/

/-- C6: request cost for a model id carrying a trailing -YYYY-MM-DD date
suffix equals the cost for the stripped id at identical token counts, and
any model id whose normalized form misses the pricing table is priced at
the default (gpt-4o-mini) tier. -/
theorem cost_normalization_and_default_tier (p c : Nat) (m : String)
    (hmiss : PRICING (normalizeModel m) = none) :
    calcRequestCost "gpt-4o-mini-2024-07-18" p c = calcRequestCost "gpt-4o-mini" p c
    ∧ calcRequestCost m p c =
        p * gptFourOMiniRate.input + c * gptFourOMiniRate.output := by
  constructor
  · unfold calcRequestCost
    rw [show normalizeModel "gpt-4o-mini-2024-07-18" = "gpt-4o-mini" from by decide]
    rfl
  · unfold calcRequestCost
    rw [hmiss]
    rfl

/-- Witness for C6 at prompt 3, completion 5, unknown id "some-unknown-model". -/
theorem cost_normalization_and_default_tier_witness :
    PRICING (normalizeModel "some-unknown-model") = none
    ∧ (calcRequestCost "gpt-4o-mini-2024-07-18" 3 5 = calcRequestCost "gpt-4o-mini" 3 5
       ∧ calcRequestCost "some-unknown-model" 3 5 =
           3 * gptFourOMiniRate.input + 5 * gptFourOMiniRate.output) :=
  ⟨by decide, cost_normalization_and_default_tier 3 5 "some-unknown-model" (by decide)⟩

/-- C8: one usage recording keeps the token-sum invariant (given it held
before) and never decreases totalCostUSD, since the added request cost is
non-negative. -/
theorem record_usage_invariants (d : DailyCost) (m : String) (p c : Nat)
    (hsum : d.totalTokens = d.totalPromptTokens + d.totalCompletionTokens) :
    (logCompletionUpdate d m p c).totalTokens =
        (logCompletionUpdate d m p c).totalPromptTokens +
          (logCompletionUpdate d m p c).totalCompletionTokens
    ∧ d.totalCostUSD ≤ (logCompletionUpdate d m p c).totalCostUSD := by
  constructor
  · simp [logCompletionUpdate, hsum]
    omega
  · simp only [logCompletionUpdate, le_add_iff_nonneg_right]
    exact calcRequestCost_nonneg m p c

/-- Witness for C8 on the zero record of a date. -/
theorem record_usage_invariants_witness :
    (logCompletionUpdate (zeroDailyCost "2026-02-03") "gpt-4o-mini" 7 5).totalTokens =
        (logCompletionUpdate (zeroDailyCost "2026-02-03") "gpt-4o-mini" 7 5).totalPromptTokens +
          (logCompletionUpdate (zeroDailyCost "2026-02-03") "gpt-4o-mini" 7 5).totalCompletionTokens
    ∧ (zeroDailyCost "2026-02-03").totalCostUSD ≤
        (logCompletionUpdate (zeroDailyCost "2026-02-03") "gpt-4o-mini" 7 5).totalCostUSD :=
  record_usage_invariants (zeroDailyCost "2026-02-03") "gpt-4o-mini" 7 5 (by decide)

/-- C2: each ledger recording is one atomic step (the read-modify-write in
logCompletion is synchronous, with no suspension point between read and
write), so two concurrent recordings on the same date serialize in one of
the two orders, and either order leaves the persisted requestCount at the
pre-state value plus 2: no update is lost. -/
theorem concurrent_requests_no_lost_update (firstIsOne : Bool)
    (stored : Option DailyCost) (date m1 m2 : String) (p1 c1 p2 c2 : Nat) :
    (readDailyCost (runTwoUpdates firstIsOne stored date m1 p1 c1 m2 p2 c2) date).requests
      = (readDailyCost stored date).requests + 2 := by
  cases firstIsOne <;>
    simp [runTwoUpdates, recordToStore, readDailyCost, logCompletionUpdate]

/-- C5: enrichment returns exactly as many spots as it was given; the spot
at every index is the input spot at the same index with every field
unchanged except imageUrl, which is set to the resolution result for that
spot alone (none when resolution failed or was absent — no other spot is
affected); in particular the id at every index is preserved verbatim. -/
theorem enrichment_order_and_field_preservation
    (resolveImage : String → Option String) (spots : List TouristSpot) (i : Nat) :
    (enrichSpots resolveImage spots).length = spots.length
    ∧ (enrichSpots resolveImage spots)[i]? =
        (spots[i]?).map (fun s => { s with imageUrl := resolveImage s.name })
    ∧ ((enrichSpots resolveImage spots)[i]?).map TouristSpot.id
        = (spots[i]?).map TouristSpot.id := by
  refine ⟨by simp [enrichSpots], by simp [enrichSpots], ?_⟩
  cases h : spots[i]? with
  | none => simp [enrichSpots, h]
  | some s => simp [enrichSpots, h]

/-- C4: the image proxy rejects a missing url parameter with 400, an
unparsable url with 400, and any parsed url whose hostname differs in any
way from the single allow-listed origin (equality is exact, so prefix or
substring lookalikes are rejected too) with 403 — and in each of these
cases no upstream fetch is issued. Quantified over every URL-parsing
function and every upstream behaviour. -/
theorem proxy_rejects_before_fetch
    (parseHostname : String → Option String) (upstream : UpstreamOutcome)
    (url host : String) :
    imageProxyGET parseHostname none upstream
        = ⟨⟨400, .text "Missing url parameter"⟩, false⟩
    ∧ (parseHostname url = none →
        imageProxyGET parseHostname (some url) upstream
          = ⟨⟨400, .text "Invalid URL"⟩, false⟩)
    ∧ (parseHostname url = some host → host ≠ ALLOWED_HOST →
        imageProxyGET parseHostname (some url) upstream
          = ⟨⟨403, .text "Host not allowed"⟩, false⟩) := by
  refine ⟨rfl, ?_, ?_⟩
  · intro h
    simp [imageProxyGET, h]
  · intro h hne
    simp [imageProxyGET, h, hne]

/-- URL parser stub for the C4 witness: one fixed parsable URL whose
hostname merely has the allow-listed origin as a proper prefix; everything
else fails to parse. -/
def evilParseStub : String → Option String
  | "https://upload.wikimedia.org.evil.example/a.jpg" =>
    some "upload.wikimedia.org.evil.example"
  | _ => none

/-- Witness for C4: a missing parameter, an unparsable value, and a
prefix-lookalike hostname are each rejected without an upstream fetch. -/
theorem proxy_rejects_before_fetch_witness :
    evilParseStub "notaurl" = none
    ∧ evilParseStub "https://upload.wikimedia.org.evil.example/a.jpg"
        = some "upload.wikimedia.org.evil.example"
    ∧ ("upload.wikimedia.org.evil.example" : String) ≠ ALLOWED_HOST
    ∧ imageProxyGET evilParseStub none UpstreamOutcome.timedOut
        = ⟨⟨400, .text "Missing url parameter"⟩, false⟩
    ∧ imageProxyGET evilParseStub (some "notaurl") UpstreamOutcome.timedOut
        = ⟨⟨400, .text "Invalid URL"⟩, false⟩
    ∧ imageProxyGET evilParseStub
        (some "https://upload.wikimedia.org.evil.example/a.jpg") UpstreamOutcome.timedOut
        = ⟨⟨403, .text "Host not allowed"⟩, false⟩ :=
  ⟨by decide, by decide, by decide,
   (proxy_rejects_before_fetch evilParseStub UpstreamOutcome.timedOut "notaurl" "h").1,
   (proxy_rejects_before_fetch evilParseStub UpstreamOutcome.timedOut "notaurl" "h").2.1
     (by decide),
   (proxy_rejects_before_fetch evilParseStub UpstreamOutcome.timedOut
       "https://upload.wikimedia.org.evil.example/a.jpg"
       "upload.wikimedia.org.evil.example").2.2 (by decide) (by decide)⟩

/-- C9: the upstream fetch of the proxy runs under the fixed 8000 ms abort
timer, and for an allow-listed URL a timeout (AbortError) produces the
dedicated timed-out response, which differs from the response produced by
any other upstream fetch failure (both carry status 502 but distinct
bodies, so the two signals are distinguishable by the caller). -/
theorem proxy_timeout_signal_distinct
    (parseHostname : String → Option String) (url : String)
    (hhost : parseHostname url = some ALLOWED_HOST) :
    PROXY_TIMEOUT_MS = 8000
    ∧ imageProxyGET parseHostname (some url) UpstreamOutcome.timedOut
        = ⟨⟨502, .text "Image fetch timed out"⟩, true⟩
    ∧ imageProxyGET parseHostname (some url) UpstreamOutcome.fetchFailed
        = ⟨⟨502, .text "Failed to fetch image"⟩, true⟩
    ∧ (imageProxyGET parseHostname (some url) UpstreamOutcome.timedOut).response
        ≠ (imageProxyGET parseHostname (some url) UpstreamOutcome.fetchFailed).response := by
  have ht : imageProxyGET parseHostname (some url) UpstreamOutcome.timedOut
      = ⟨⟨502, .text "Image fetch timed out"⟩, true⟩ := by
    simp [imageProxyGET, hhost]
  have hf : imageProxyGET parseHostname (some url) UpstreamOutcome.fetchFailed
      = ⟨⟨502, .text "Failed to fetch image"⟩, true⟩ := by
    simp [imageProxyGET, hhost]
  refine ⟨rfl, ht, hf, ?_⟩
  rw [ht, hf]
  decide

/-- URL parser stub for the C9 witness: every string parses with the
allow-listed hostname. -/
def allowParseStub : String → Option String := fun _ => some ALLOWED_HOST

/-- Witness for C9 at a concrete thumbnail URL. -/
theorem proxy_timeout_signal_distinct_witness :
    allowParseStub "https://upload.wikimedia.org/x/640px-y.jpg" = some ALLOWED_HOST
    ∧ (PROXY_TIMEOUT_MS = 8000
       ∧ imageProxyGET allowParseStub (some "https://upload.wikimedia.org/x/640px-y.jpg")
           UpstreamOutcome.timedOut = ⟨⟨502, .text "Image fetch timed out"⟩, true⟩
       ∧ imageProxyGET allowParseStub (some "https://upload.wikimedia.org/x/640px-y.jpg")
           UpstreamOutcome.fetchFailed = ⟨⟨502, .text "Failed to fetch image"⟩, true⟩
       ∧ (imageProxyGET allowParseStub (some "https://upload.wikimedia.org/x/640px-y.jpg")
             UpstreamOutcome.timedOut).response
           ≠ (imageProxyGET allowParseStub (some "https://upload.wikimedia.org/x/640px-y.jpg")
               UpstreamOutcome.fetchFailed).response) :=
  ⟨rfl, proxy_timeout_signal_distinct allowParseStub
     "https://upload.wikimedia.org/x/640px-y.jpg" rfl⟩

/-- C7: image resolution is a total function of the two endpoint outcomes
(it never raises: thrown network or parse errors are explicit outcomes
mapped to values). A direct-lookup thumbnail is returned upscaled; when the
direct tier yields nothing — thrown error, non-2xx or missing thumbnail
alike — the search fallback runs, feeding the top hit title back into the
summary lookup and upscaling its thumbnail; when each tier yields nothing
(the search failing, returning no title, or its title resolving to no
thumbnail), the result is absent. -/
theorem image_resolver_two_tier_fallback
    (summaryOf : String → SummaryOutcome) (searchOf : String → SearchOutcome)
    (spotName thumb title thumb2 : String) :
    (summaryOf (slugify (jsTrim spotName)) = .okThumb thumb →
      fetchWikipediaImage summaryOf searchOf spotName = some (upscale thumb))
    ∧ ((∀ t, summaryOf (slugify (jsTrim spotName)) ≠ .okThumb t) →
        searchOf spotName = .okTitle title →
        summaryOf (slugify title) = .okThumb thumb2 →
        fetchWikipediaImage summaryOf searchOf spotName = some (upscale thumb2))
    ∧ ((∀ t, summaryOf (slugify (jsTrim spotName)) ≠ .okThumb t) →
        (∀ t, searchOf spotName ≠ .okTitle t) →
        fetchWikipediaImage summaryOf searchOf spotName = none)
    ∧ ((∀ t, summaryOf (slugify (jsTrim spotName)) ≠ .okThumb t) →
        searchOf spotName = .okTitle title →
        (∀ t, summaryOf (slugify title) ≠ .okThumb t) →
        fetchWikipediaImage summaryOf searchOf spotName = none) := by
  refine ⟨?_, ?_, ?_, ?_⟩
  · intro h1
    simp [fetchWikipediaImage, h1]
  · intro hno hsearch hsum
    cases h1 : summaryOf (slugify (jsTrim spotName)) with
    | okThumb t => exact absurd h1 (hno t)
    | errored => simp [fetchWikipediaImage, h1, hsearch, hsum]
    | notOk => simp [fetchWikipediaImage, h1, hsearch, hsum]
    | okNoThumb => simp [fetchWikipediaImage, h1, hsearch, hsum]
  · intro hno hnt
    cases h1 : summaryOf (slugify (jsTrim spotName)) with
    | okThumb t => exact absurd h1 (hno t)
    | errored =>
      cases h2 : searchOf spotName with
      | okTitle t => exact absurd h2 (hnt t)
      | errored => simp [fetchWikipediaImage, h1, h2]
      | notOk => simp [fetchWikipediaImage, h1, h2]
      | okNoTitle => simp [fetchWikipediaImage, h1, h2]
    | notOk =>
      cases h2 : searchOf spotName with
      | okTitle t => exact absurd h2 (hnt t)
      | errored => simp [fetchWikipediaImage, h1, h2]
      | notOk => simp [fetchWikipediaImage, h1, h2]
      | okNoTitle => simp [fetchWikipediaImage, h1, h2]
    | okNoThumb =>
      cases h2 : searchOf spotName with
      | okTitle t => exact absurd h2 (hnt t)
      | errored => simp [fetchWikipediaImage, h1, h2]
      | notOk => simp [fetchWikipediaImage, h1, h2]
      | okNoTitle => simp [fetchWikipediaImage, h1, h2]
  · intro hno hsearch hnt2
    cases h1 : summaryOf (slugify (jsTrim spotName)) with
    | okThumb t => exact absurd h1 (hno t)
    | errored =>
      cases h3 : summaryOf (slugify title) with
      | okThumb t => exact absurd h3 (hnt2 t)
      | errored => simp [fetchWikipediaImage, h1, hsearch, h3]
      | notOk => simp [fetchWikipediaImage, h1, hsearch, h3]
      | okNoThumb => simp [fetchWikipediaImage, h1, hsearch, h3]
    | notOk =>
      cases h3 : summaryOf (slugify title) with
      | okThumb t => exact absurd h3 (hnt2 t)
      | errored => simp [fetchWikipediaImage, h1, hsearch, h3]
      | notOk => simp [fetchWikipediaImage, h1, hsearch, h3]
      | okNoThumb => simp [fetchWikipediaImage, h1, hsearch, h3]
    | okNoThumb =>
      cases h3 : summaryOf (slugify title) with
      | okThumb t => exact absurd h3 (hnt2 t)
      | errored => simp [fetchWikipediaImage, h1, hsearch, h3]
      | notOk => simp [fetchWikipediaImage, h1, hsearch, h3]
      | okNoThumb => simp [fetchWikipediaImage, h1, hsearch, h3]

/-- Summary-endpoint stub for the C7 witness: only the slug of the search
hit title carries a thumbnail; the direct slug of the spot name is a 404. -/
def wikiSummaryStub : String → SummaryOutcome
  | "Fort_San_Pedro" => SummaryOutcome.okThumb "a/320px-b.jpg"
  | _ => SummaryOutcome.notOk

/-- Search-endpoint stub for the C7 witness: one name has a top hit,
every other query returns no results. -/
def wikiSearchStub : String → SearchOutcome
  | "Magellan Cross" => SearchOutcome.okTitle "Fort San Pedro"
  | _ => SearchOutcome.okNoTitle

/-- Witness for C7: a name whose direct lookup is a 404 resolves through
the search fallback to the upscaled thumbnail, and a name for which both
tiers yield nothing resolves to absent. -/
theorem image_resolver_two_tier_fallback_witness :
    fetchWikipediaImage wikiSummaryStub wikiSearchStub "Magellan Cross"
        = some "a/640px-b.jpg"
    ∧ fetchWikipediaImage wikiSummaryStub wikiSearchStub "Lost Shrine" = none := by
  constructor
  · have h := (image_resolver_two_tier_fallback wikiSummaryStub wikiSearchStub
        "Magellan Cross" "" "Fort San Pedro" "a/320px-b.jpg").2.1
      (by intro t ht
          rw [show wikiSummaryStub (slugify (jsTrim "Magellan Cross"))
                = SummaryOutcome.notOk from by decide] at ht
          exact SummaryOutcome.noConfusion ht)
      (by decide) (by decide)
    exact h.trans (by decide)
  · exact (image_resolver_two_tier_fallback wikiSummaryStub wikiSearchStub
        "Lost Shrine" "" "" "").2.2.1
      (by intro t ht
          rw [show wikiSummaryStub (slugify (jsTrim "Lost Shrine"))
                = SummaryOutcome.notOk from by decide] at ht
          exact SummaryOutcome.noConfusion ht)
      (by intro t ht
          rw [show wikiSearchStub "Lost Shrine" = SearchOutcome.okNoTitle from by decide] at ht
          exact SearchOutcome.noConfusion ht)

/-- C10: a request with no credential anywhere (no header key, no env key)
and an empty or whitespace-only (or missing) address is rejected with the
401 missing-credential response, not the 400 empty-address response: the
key check runs first; neither check invokes the model or touches the
ledger. -/
theorem missing_key_checked_before_address (budget : ℚ) (todayDate : String)
    (store : LedgerStore) (address : Option String) (modelOutcome : ModelOutcome)
    (resolveImage : String → Option String)
    (haddr : hasEmptyAddress address = true) :
    POST budget todayDate store none none (Except.ok address) modelOutcome resolveImage
      = ⟨.noApiKey, false, store⟩
    ∧ PostResult.noApiKey.status = 401
    ∧ PostResult.emptyAddress.status = 400 := by
  refine ⟨?_, rfl, rfl⟩
  simp [POST]

/-- Witness for C10: whitespace-only address, no credential. -/
theorem missing_key_checked_before_address_witness :
    hasEmptyAddress (some "   ") = true
    ∧ (POST 5 "2026-02-03" (Except.ok none) none none (Except.ok (some "   "))
         ModelOutcome.failure (fun _ => none)
         = ⟨.noApiKey, false, Except.ok none⟩
       ∧ PostResult.noApiKey.status = 401
       ∧ PostResult.emptyAddress.status = 400) :=
  ⟨by decide,
   missing_key_checked_before_address 5 "2026-02-03" (Except.ok none) (some "   ")
     ModelOutcome.failure (fun _ => none) (by decide)⟩

/-- C3 counterexample: a completion whose content parses as JSON but lacks
the spots field does NOT exit to the 500 Failed state — the route defaults
the missing field to the empty list and returns a 200 success payload. -/
theorem parsed_without_spots_succeeds_counterexample :
    (POST 5 "2026-02-03" (Except.ok none) (some "k") none (Except.ok (some "Cebu"))
        (ModelOutcome.success ⟨"gpt-4o-mini", some ⟨10, 10⟩,
          ContentOutcome.parsed ⟨some "Cebu City", none⟩⟩) (fun _ => none)).result
      = PostResult.ok ⟨some "Cebu City", some []⟩
    ∧ (PostResult.ok (⟨some "Cebu City", some []⟩ : GenData)).status = 200 := by
  have hb : isDailyBudgetExceeded 5 "2026-02-03" (Except.ok none) = false :=
    budget_not_exceeded_of_lt 5 "2026-02-03" none
      (by norm_num [readDailyCost, zeroDailyCost])
  have h := POST_guard_pass 5 "2026-02-03" (Except.ok none) (some "k") none
      (some "Cebu")
      (ModelOutcome.success ⟨"gpt-4o-mini", some ⟨10, 10⟩,
        ContentOutcome.parsed ⟨some "Cebu City", none⟩⟩) (fun _ => none)
      (by decide) (by decide) hb
  refine ⟨?_, rfl⟩
  rw [h]
  rfl

/-- C3 (amended): for a valid request that reaches the parse stage, a
content that fails to parse exits to the generic 500 Failed state, while a
content that parses but lacks the spots field returns a 200 success
response whose spots list is empty. -/
theorem parse_failure_500_missing_spots_empty_success
    (budget : ℚ) (todayDate : String) (store : LedgerStore)
    (headerKey envKey : Option String) (address : Option String)
    (resp : ModelResponse) (resolveImage : String → Option String) (data : GenData)
    (hkey : headerKey.getD (envKey.getD "") ≠ "")
    (haddr : hasEmptyAddress address = false)
    (hbudget : isDailyBudgetExceeded budget todayDate store = false) :
    (resp.content = ContentOutcome.unparsable →
      (POST budget todayDate store headerKey envKey (Except.ok address)
          (ModelOutcome.success resp) resolveImage).result = PostResult.serverError
      ∧ PostResult.serverError.status = 500)
    ∧ (resp.content = ContentOutcome.parsed data → data.spots = none →
        (POST budget todayDate store headerKey envKey (Except.ok address)
            (ModelOutcome.success resp) resolveImage).result
          = PostResult.ok { data with spots := some [] }) := by
  have h := POST_guard_pass budget todayDate store headerKey envKey address
      (ModelOutcome.success resp) resolveImage hkey haddr hbudget
  constructor
  · intro hc
    rw [h]
    exact ⟨by simp [postAfterModel, hc], rfl⟩
  · intro hc hs
    rw [h]
    simp [postAfterModel, hc, hs, enrichSpots]

/-- Witness for the amended C3: one unparsable content yielding 500, one
parsed content without spots yielding a 200 with empty spots. -/
theorem parse_failure_500_missing_spots_empty_success_witness :
    ((some "k" : Option String).getD ((none : Option String).getD "") ≠ ""
     ∧ hasEmptyAddress (some "Cebu") = false
     ∧ isDailyBudgetExceeded 5 "2026-02-03" (Except.ok none) = false)
    ∧ ((POST 5 "2026-02-03" (Except.ok none) (some "k") none (Except.ok (some "Cebu"))
          (ModelOutcome.success ⟨"gpt-4o-mini", some ⟨10, 10⟩, ContentOutcome.unparsable⟩)
          (fun _ => none)).result = PostResult.serverError
        ∧ PostResult.serverError.status = 500)
    ∧ (POST 5 "2026-02-03" (Except.ok none) (some "k") none (Except.ok (some "Cebu"))
          (ModelOutcome.success ⟨"gpt-4o-mini", some ⟨10, 10⟩,
            ContentOutcome.parsed ⟨some "Davao", none⟩⟩)
          (fun _ => none)).result = PostResult.ok ⟨some "Davao", some []⟩ := by
  have hb : isDailyBudgetExceeded 5 "2026-02-03" (Except.ok none) = false :=
    budget_not_exceeded_of_lt 5 "2026-02-03" none
      (by norm_num [readDailyCost, zeroDailyCost])
  refine ⟨⟨by decide, by decide, hb⟩, ?_, ?_⟩
  · exact (parse_failure_500_missing_spots_empty_success 5 "2026-02-03" (Except.ok none)
      (some "k") none (some "Cebu")
      ⟨"gpt-4o-mini", some ⟨10, 10⟩, ContentOutcome.unparsable⟩
      (fun _ => none) ⟨some "Davao", none⟩ (by decide) (by decide) hb).1 rfl
  · exact (parse_failure_500_missing_spots_empty_success 5 "2026-02-03" (Except.ok none)
      (some "k") none (some "Cebu")
      ⟨"gpt-4o-mini", some ⟨10, 10⟩, ContentOutcome.parsed ⟨some "Davao", none⟩⟩
      (fun _ => none) ⟨some "Davao", none⟩ (by decide) (by decide) hb).2 rfl rfl

/-- C1: the budget check fails open on a storage read error; the default
ceiling is 5.00; for a stored record the check trips exactly when the
accumulated cost has reached the ceiling; and the guardrail edge: with
the cost of today strictly below the ceiling a valid request passes the check
(which runs before the model call), completes with a 200 payload, and
persists the updated record — and when that very update pushes the cost to
or past the ceiling, every subsequent valid request on the date is
rejected 429 with the model never invoked. -/
theorem budget_guardrail_edge (budget : ℚ) (todayDate : String) (rec0 : DailyCost)
    (headerKey envKey : Option String) (address : Option String)
    (resp : ModelResponse) (resolveImage : String → Option String)
    (data : GenData) (u : ModelUsage)
    (hkey : headerKey.getD (envKey.getD "") ≠ "")
    (haddr : hasEmptyAddress address = false)
    (husage : resp.usage = some u)
    (hcontent : resp.content = ContentOutcome.parsed data)
    (hbelow : rec0.totalCostUSD < budget)
    (hafter : budget ≤
      (logCompletionUpdate rec0 resp.model u.promptTokens u.completionTokens).totalCostUSD) :
    isDailyBudgetExceeded budget todayDate (Except.error ()) = false
    ∧ DAILY_BUDGET_DEFAULT = 5
    ∧ (∀ stored, isDailyBudgetExceeded budget todayDate (Except.ok stored) = true
        ↔ budget ≤ (readDailyCost stored todayDate).totalCostUSD)
    ∧ POST budget todayDate (Except.ok (some rec0)) headerKey envKey (Except.ok address)
        (ModelOutcome.success resp) resolveImage
        = ⟨PostResult.ok { data with
              spots := some (enrichSpots resolveImage (data.spots.getD [])) }, true,
           Except.ok (some (logCompletionUpdate rec0 resp.model
             u.promptTokens u.completionTokens))⟩
    ∧ (∀ headerKey2 envKey2 address2 modelOutcome2 resolveImage2,
        headerKey2.getD (envKey2.getD "") ≠ "" →
        hasEmptyAddress address2 = false →
        POST budget todayDate
            (Except.ok (some (logCompletionUpdate rec0 resp.model
              u.promptTokens u.completionTokens)))
            headerKey2 envKey2 (Except.ok address2) modelOutcome2 resolveImage2
          = ⟨PostResult.budgetExceeded, false,
             Except.ok (some (logCompletionUpdate rec0 resp.model
               u.promptTokens u.completionTokens))⟩) := by
  have hb0 : isDailyBudgetExceeded budget todayDate (Except.ok (some rec0)) = false :=
    budget_not_exceeded_of_lt budget todayDate (some rec0)
      (by simpa [readDailyCost] using hbelow)
  refine ⟨rfl, rfl, ?_, ?_, ?_⟩
  · intro stored
    simp [isDailyBudgetExceeded]
  · rw [POST_guard_pass budget todayDate (Except.ok (some rec0)) headerKey envKey address
        (ModelOutcome.success resp) resolveImage hkey haddr hb0]
    simp [postAfterModel, hcontent, husage, recordToStore, readDailyCost]
  · intro headerKey2 envKey2 address2 modelOutcome2 resolveImage2 hkey2 haddr2
    exact POST_budget_block budget todayDate _ headerKey2 envKey2 address2
      modelOutcome2 resolveImage2 hkey2 haddr2
      (budget_exceeded_of_le budget todayDate _ (by simpa [readDailyCost] using hafter))

/-- Pre-state record for the C1 witness: 4.00 spent of a 5.00 ceiling. -/
def wRec : DailyCost := ⟨"2026-02-03", 3, 100, 100, 200, 4⟩

/-- Completion for the C1 witness: 20,000,000 prompt tokens cost 3.00 at
the gpt-4o-mini input rate, pushing the day from 4.00 to 7.00. -/
def wResp : ModelResponse :=
  ⟨"gpt-4o-mini", some ⟨20000000, 0⟩, ContentOutcome.parsed ⟨some "Cebu City", some []⟩⟩

/-- Witness for C1: the request crossing the ceiling completes and the next
request on the date is rejected 429 without a model call. -/
theorem budget_guardrail_edge_witness :
    wRec.totalCostUSD < 5
    ∧ 5 ≤ (logCompletionUpdate wRec "gpt-4o-mini" 20000000 0).totalCostUSD
    ∧ POST 5 "2026-02-03" (Except.ok (some wRec)) (some "k") none
        (Except.ok (some "Cebu")) (ModelOutcome.success wResp) (fun _ => none)
        = ⟨PostResult.ok ⟨some "Cebu City", some []⟩, true,
           Except.ok (some (logCompletionUpdate wRec "gpt-4o-mini" 20000000 0))⟩
    ∧ POST 5 "2026-02-03"
        (Except.ok (some (logCompletionUpdate wRec "gpt-4o-mini" 20000000 0)))
        (some "k2") none (Except.ok (some "Makati")) ModelOutcome.failure (fun _ => none)
        = ⟨PostResult.budgetExceeded, false,
           Except.ok (some (logCompletionUpdate wRec "gpt-4o-mini" 20000000 0))⟩ := by
  have hbelow : wRec.totalCostUSD < 5 := by norm_num [wRec]
  have hcost : calcRequestCost "gpt-4o-mini" 20000000 0
      = 20000000 * gptFourOMiniRate.input + 0 * gptFourOMiniRate.output := rfl
  have hafter : (5 : ℚ) ≤ (logCompletionUpdate wRec "gpt-4o-mini" 20000000 0).totalCostUSD := by
    have hu : (logCompletionUpdate wRec "gpt-4o-mini" 20000000 0).totalCostUSD
        = wRec.totalCostUSD + calcRequestCost "gpt-4o-mini" 20000000 0 := rfl
    rw [hu, hcost]
    norm_num [wRec, gptFourOMiniRate]
  have h := budget_guardrail_edge 5 "2026-02-03" wRec (some "k") none (some "Cebu")
      wResp (fun _ => none) ⟨some "Cebu City", some []⟩ ⟨20000000, 0⟩
      (by decide) (by decide) rfl rfl hbelow hafter
  exact ⟨hbelow, hafter, h.2.2.2.1.trans (by rfl),
    h.2.2.2.2 (some "k2") none (some "Makati") ModelOutcome.failure (fun _ => none)
      (by decide) (by decide)⟩

end TravelSpot
